import Mathlib

/-!
Verification of the FlightTracker client data layer against its source.

The development shallowly embeds the code that the properties below are
about:

* the error classifier and the retrying proxy wrapped around the backend
  client (src/src/lib/supabase.ts: isRetryableError, createRetryProxy,
  MAX_RETRIES, INITIAL_RETRY_DELAY, MAX_RETRY_DELAY);
* the database facade (src/src/lib/db.ts: handleDbError, dbQuery,
  db.companyTails.getByCompany);
* the flight form submit handler (src/src/components/FlightModal.tsx:
  onSubmit, update branch and its audit-log insert);
* the SQL validation trigger for overlapping flights
  (supabase/migrations/20250122210438_dusty_shrine.sql:
  validate_flight_dates) and the stale-lock cleanup
  (supabase/migrations/20250122201856_lucky_wood.sql: cleanup_old_locks).

JavaScript values are modelled explicitly: a nullable value is an
`Option`, an error object is a `JsError` record (TypeError flag, optional
message, optional code), string containment is `strIncludes`, and
lowercasing is `jsToLower` (character-wise ASCII lowercasing, as
performed by `toLowerCase` on the ASCII error messages involved).
Connectivity (`navigator.onLine`) is a boolean snapshot parameter.
-/

/-- JavaScript substring test on character lists: `needle` occurs
contiguously inside the list. Mirrors `String.prototype.includes`. -/
def containsSub (needle : List Char) : List Char → Bool
  | [] => needle.isEmpty
  | c :: rest => needle.isPrefixOf (c :: rest) || containsSub needle rest

/-- JavaScript `hay.includes(needle)`. -/
def strIncludes (hay needle : String) : Bool :=
  containsSub needle.toList hay.toList

/-- JavaScript `s.toLowerCase()` restricted to ASCII, character-wise. -/
def jsToLower (s : String) : String :=
  ⟨s.toList.map Char.toLower⟩

/-- Model of a JavaScript error value: whether it is a `TypeError`, its
optional `message`, its optional `code`. A `null`/`undefined` error is
`Option.none` at use sites. -/
structure JsError where
  isTypeError : Bool
  message : Option String
  code : Option String
deriving DecidableEq

/-- The `retryableMessages` array of isRetryableError (supabase.ts). -/
def retryableMessages : List String :=
  ["network error", "timeout", "connection refused", "socket hang up",
   "econnrefused", "etimedout", "failed to fetch"]

/-- The `retryableCodes` array of isRetryableError (supabase.ts). -/
def retryableCodes : List String :=
  ["PGRST301", "503", "504", "408", "429"]

/-- isRetryableError (supabase.ts). `online` is the value of
`navigator.onLine` at the moment of the call. A falsy (`null`) error is
not retryable; a `TypeError` or a call made while offline is always
retryable; otherwise the lowercased message is searched for the
transient substrings and finally the error code is compared against the
retryable codes. Truthiness of `error.message` and `error.code` is the
JavaScript one: present and non-empty. -/
def isRetryableError (online : Bool) (error : Option JsError) : Bool :=
  match error with
  | none => false
  | some e =>
    if e.isTypeError || !online then true
    else if (match e.message with
             | some m => decide (m ≠ "") &&
                 retryableMessages.any (fun msg => strIncludes (jsToLower m) msg)
             | none => false) then true
    else match e.code with
         | some c => decide (c ≠ "") && retryableCodes.contains c
         | none => false


/-- MAX_RETRIES (supabase.ts). -/
def MAX_RETRIES : Nat := 3

/-- INITIAL_RETRY_DELAY in milliseconds (supabase.ts). -/
def INITIAL_RETRY_DELAY : Nat := 1000

/-- MAX_RETRY_DELAY in milliseconds (supabase.ts). -/
def MAX_RETRY_DELAY : Nat := 5000

/-- The backoff delay computed in the catch block of the retry proxy:
`Math.min(INITIAL_RETRY_DELAY * Math.pow(2, attempt), MAX_RETRY_DELAY)`. -/
def retryDelay (attempt : Nat) : Nat :=
  min (INITIAL_RETRY_DELAY * 2 ^ attempt) MAX_RETRY_DELAY

/-- A structured result of one backend call, the `{data, error}` object
the query builder resolves with. -/
structure QueryResult (α : Type) where
  data : Option α
  error : Option JsError
deriving DecidableEq

/-- One execution of the wrapped operation either resolves with a
`{data, error}` object or rejects (throws). -/
inductive AttemptOutcome (α : Type) where
  | returns (res : QueryResult α)
  | throws (e : JsError)
deriving DecidableEq

/-- The `lastError?.message || ...` fallback used when formatting the
final error message of the retry proxy. -/
def lastErrorMessage (lastError : Option JsError) : String :=
  match lastError with
  | some e =>
    match e.message with
    | some m => if m = "" then "An unknown error occurred" else m
    | none => "An unknown error occurred"
  | none => "An unknown error occurred"

/-- The `formattedError` built after the retry loop of the proxy exits
without returning a result. -/
def formattedError (lastError : Option JsError) : JsError :=
  { isTypeError := false
    message := some ("Database operation failed: " ++ lastErrorMessage lastError ++
      ". Please check your connection and try again.")
    code := none }

/-- Observable trace of one call through the retry proxy: the value the
wrapped function resolves with, the number of times the underlying
operation was executed, and the waits performed between attempts, in
order. -/
structure RunTrace (α : Type) where
  result : QueryResult α
  attempts : Nat
  delays : List Nat
deriving DecidableEq

/-- The while loop of the proxied function in createRetryProxy
(supabase.ts). `outcomes n` is what the n-th execution of the underlying
operation does. `attempt` is the loop counter, `execs` counts executions
already performed, `lastError` and `delaysRev` (reversed accumulator)
track the catch block state. The loop in the source can only be left by
`return` or `break`, both mapped to a terminal `RunTrace`; `fuel` is the
usual bound `MAX_RETRIES - attempt` on remaining iterations, and the
fuel-exhausted case corresponds to the `while` condition turning false,
which also falls through to the formatted error. A retryable structured
error is thrown (`throw result.error`) and lands in the catch block,
whose guard `attempt < MAX_RETRIES - 1 && isRetryableError(error)`
either waits `retryDelay attempt` and retries or breaks; the same catch
block receives errors thrown by the operation itself. -/
def retryLoop (online : Bool) (outcomes : Nat → AttemptOutcome α) :
    Nat → Nat → Nat → Option JsError → List Nat → RunTrace α
  | 0, _, execs, lastError, delaysRev =>
      ⟨⟨none, some (formattedError lastError)⟩, execs, delaysRev.reverse⟩
  | fuel + 1, attempt, execs, _lastError, delaysRev =>
    match outcomes execs with
    | .returns res =>
      match res.error with
      | some err =>
        if isRetryableError online (some err) then
          if decide (attempt < MAX_RETRIES - 1) && isRetryableError online (some err) then
            retryLoop online outcomes fuel (attempt + 1) (execs + 1) (some err)
              (retryDelay attempt :: delaysRev)
          else
            ⟨⟨none, some (formattedError (some err))⟩, execs + 1, delaysRev.reverse⟩
        else
          ⟨res, execs + 1, delaysRev.reverse⟩
      | none => ⟨res, execs + 1, delaysRev.reverse⟩
    | .throws e =>
      if decide (attempt < MAX_RETRIES - 1) && isRetryableError online (some e) then
        retryLoop online outcomes fuel (attempt + 1) (execs + 1) (some e)
          (retryDelay attempt :: delaysRev)
      else
        ⟨⟨none, some (formattedError (some e))⟩, execs + 1, delaysRev.reverse⟩

/-- One call of a function wrapped by createRetryProxy: the retry loop
started with `attempt = 0`, no last error and no delays performed. -/
def proxyCall (online : Bool) (outcomes : Nat → AttemptOutcome α) : RunTrace α :=
  retryLoop online outcomes MAX_RETRIES 0 0 none []

/-- An operation that rejects with a "timeout" error on every attempt. -/
def timeoutError : JsError :=
  ⟨false, some "timeout", none⟩

/-- Outcome sequence of an operation that always fails retryably. -/
def alwaysTimeout : Nat → AttemptOutcome Unit :=
  fun _ => AttemptOutcome.throws timeoutError


/-- The user-facing message computed by handleDbError (db.ts): the
backend error message is searched, case-sensitively, for known
substrings, with a generic fallback. Only the `error` field of the
returned object is modelled; `details` carries the original error and is
not read by any caller under verification. -/
def handleDbError (error : Option JsError) : String :=
  match error with
  | some e =>
    match e.message with
    | some m =>
      if m = "" then "An error occurred while accessing the database."
      else if strIncludes m "dates overlap" then
        "This flight overlaps with another flight for the same aircraft."
      else if strIncludes m "not found" then
        "The requested record was not found."
      else if strIncludes m "permission denied" then
        "You do not have permission to perform this action."
      else if strIncludes m "network" then
        "Unable to connect to the database. Please check your internet connection."
      else "An error occurred while accessing the database."
    | none => "An error occurred while accessing the database."
  | none => "An error occurred while accessing the database."

/-- The `{data: T | null, error: string | null}` value every facade
operation resolves with (db.ts). -/
structure DbResult (α : Type) where
  data : Option α
  error : Option String
deriving DecidableEq

/-- What awaiting the query passed to dbQuery can do: resolve with a
`{data, error}` object, or reject (the promise throws). -/
inductive QueryOutcome (α : Type) where
  | resolves (res : QueryResult α)
  | rejects (e : Option JsError)
deriving DecidableEq

/-- dbQuery (db.ts): awaits the query inside try/catch; a structured
error and a thrown value are both converted by handleDbError into a
message string, and every path resolves with a `DbResult`. -/
def dbQuery {α : Type} (q : QueryOutcome α) : DbResult α :=
  match q with
  | .resolves res =>
    match res.error with
    | some err => ⟨none, some (handleDbError (some err))⟩
    | none => ⟨res.data, none⟩
  | .rejects e => ⟨none, some (handleDbError e)⟩

/-- Company row (types.ts). -/
structure Company where
  id : String
  name : String
  contact : String
  phone : String
  email : String
  address : String
  created_at : String
  created_by : String
  updated_at : String
deriving DecidableEq

/-- CompanyTail row (types.ts). -/
structure CompanyTail where
  id : String
  company_id : String
  tail_number : String
  created_at : String
deriving DecidableEq

/-- db.companyTails.getByCompany (db.ts): first the company is looked up
by name through dbQuery; when the resulting `data` is falsy the function
returns `{data: [], error: null}` without touching the tails query,
otherwise it resolves the tails query for the found company through
dbQuery. `companyLookup` is the outcome of the company query and
`tailsQuery c` the outcome of the company_tails query for company `c`. -/
def getByCompany (companyLookup : QueryOutcome Company)
    (tailsQuery : Company → QueryOutcome (List CompanyTail)) :
    DbResult (List CompanyTail) :=
  match (dbQuery companyLookup).data with
  | none => ⟨some [], none⟩
  | some company => dbQuery (tailsQuery company)

/-- Flight row (types.ts). -/
structure Flight where
  id : String
  tail_number : String
  start_date : String
  end_date : String
  start_airport : String
  end_airport : String
  notes : String
  company : String
  status : String
  created_at : String
  created_by : String
  updated_at : String
deriving DecidableEq

/-- The fields collected by the flight form (FlightModal.tsx,
useForm defaultValues / register calls). -/
structure FlightForm where
  company : String
  tail_number : String
  start_date : String
  end_date : String
  start_airport : String
  end_airport : String
  notes : String
deriving DecidableEq

/-- The `flightData` object built in onSubmit: the submitted form data
extended with `created_by` and `status`. -/
structure FlightData where
  form : FlightForm
  created_by : String
  status : String
deriving DecidableEq

/-- The `changes` payload of an audit_logs insert issued by onSubmit:
the update branch records the pre-update flight and the submitted data,
the create branch records the created row. -/
inductive AuditChanges where
  | updateChanges (previous : Flight) (next : FlightData)
  | createChanges (next : Flight)
deriving DecidableEq

/-- One row handed to the audit_logs insert call issued by
onSubmit (FlightModal.tsx). -/
structure AuditEntry where
  flight_id : String
  user_id : String
  action : String
  changes : AuditChanges
deriving DecidableEq

/-- The status default used when building `flightData`: the status of
the edited flight when present and truthy, the string active
otherwise. -/
def statusOrActive (flight : Option Flight) : String :=
  match flight with
  | some f => if f.status = "" then "active" else f.status
  | none => "active"

/-- The audit_logs inserts issued by one run of onSubmit
(FlightModal.tsx). `endBeforeStart` is the result of the
`new Date(data.end_date) < new Date(data.start_date)` comparison (date
parsing abstracted to its boolean outcome), `user` the id of the
authenticated user if any, `flight` the flight being edited (none when
creating). For the update branch `updateError` is the error of the
flights update call; an error is thrown and caught, skipping the audit
insert. For the create branch `insertOutcome` is the resolved
`{data, error}` of the flights insert. The audit insert itself is issued
unconditionally once its branch is reached; its own result is not
inspected by the source. -/
def onSubmit (flight : Option Flight) (data : FlightForm) (endBeforeStart : Bool)
    (user : Option String) (updateError : Option JsError)
    (insertOutcome : QueryResult Flight) : List AuditEntry :=
  if endBeforeStart then []
  else
    match user with
    | none => []
    | some uid =>
      let flightData : FlightData := ⟨data, uid, statusOrActive flight⟩
      match flight with
      | some f =>
        match updateError with
        | some _ => []
        | none => [⟨f.id, uid, "update", AuditChanges.updateChanges f flightData⟩]
      | none =>
        match insertOutcome.error with
        | some _ => []
        | none =>
          match insertOutcome.data with
          | some newFlight =>
              [⟨newFlight.id, uid, "create", AuditChanges.createChanges newFlight⟩]
          | none => []

/-- The columns of the flights table read by the validate_flight_dates
trigger (dusty_shrine migration); timestamps are modelled as integers. -/
structure FlightRow where
  id : String
  tail_number : String
  start_date : Int
  end_date : Int
  status : String
deriving DecidableEq

/-- The SQL OVERLAPS predicate on two periods, as defined by PostgreSQL:
each pair is normalized so its earlier value is the start, a period is
the half-open interval from start to end, and a period with equal
endpoints stands for that single instant. -/
def sqlOverlaps (s1 e1 s2 e2 : Int) : Bool :=
  let a1 := min s1 e1
  let b1 := max s1 e1
  let a2 := min s2 e2
  let b2 := max s2 e2
  (decide (a1 = b1) && decide (a2 = b2) && decide (a1 = a2)) ||
  (decide (a1 = b1) && decide (a2 ≠ b2) && decide (a2 ≤ a1) && decide (a1 < b2)) ||
  (decide (a1 ≠ b1) && decide (a2 = b2) && decide (a1 ≤ a2) && decide (a2 < b1)) ||
  (decide (a1 ≠ b1) && decide (a2 ≠ b2) && decide (a1 < b2) && decide (a2 < b1))

/-- The EXISTS test of validate_flight_dates (dusty_shrine migration):
true when the table holds a row with the same tail number, a different
id, active status, whose dates OVERLAPS the new row, in which case the
trigger raises. -/
def validate_flight_dates (table : List FlightRow) (newRow : FlightRow) : Bool :=
  table.any fun f =>
    f.tail_number == newRow.tail_number && f.id != newRow.id &&
      f.status == "active" &&
      sqlOverlaps newRow.start_date newRow.end_date f.start_date f.end_date

/-- The text of the exception raised by validate_flight_dates, with the
tail number interpolated. -/
def overlapMessage (tailNumber : String) : String :=
  "Flight dates overlap with existing flight for tail number " ++ tailNumber

/-- The raised overlap exception as the backend error object the client
receives. -/
def overlapError (tailNumber : String) : JsError :=
  ⟨false, some (overlapMessage tailNumber), none⟩

/-- An INSERT on flights under the validate_flight_dates_trigger: the
BEFORE INSERT trigger either raises the overlap exception or lets the
row be appended. -/
def insertFlight (table : List FlightRow) (newRow : FlightRow) :
    Except JsError (List FlightRow) :=
  if validate_flight_dates table newRow then
    .error (overlapError newRow.tail_number)
  else
    .ok (table ++ [newRow])

/-- A pair of flight rows violating the overlap invariant: both active,
same tail number, OVERLAPS dates. -/
def badPair (f g : FlightRow) : Prop :=
  f.status = "active" ∧ g.status = "active" ∧ f.tail_number = g.tail_number ∧
    sqlOverlaps f.start_date f.end_date g.start_date g.end_date = true

instance (f g : FlightRow) : Decidable (badPair f g) := by
  unfold badPair; infer_instance

/-- The invariant of the flights table: no two active rows with the same
tail number have overlapping date periods. -/
def noActiveOverlap (table : List FlightRow) : Prop :=
  List.Pairwise (fun f g => ¬ badPair f g) table

/-- FlightLock row (types.ts / lucky_wood migration); `locked_at` is an
instant in seconds. -/
structure FlightLock where
  flight_id : String
  user_id : String
  user_email : String
  locked_at : Int
deriving DecidableEq

/-- The interval subtracted from now() by cleanup_old_locks, in
seconds. -/
def fifteenMinutes : Int := 15 * 60

/-- cleanup_old_locks (lucky_wood migration): DELETE FROM flight_locks
WHERE locked_at is older than fifteen minutes before `now`; the rows
remaining are exactly those not matched by the WHERE clause. No column
other than locked_at is consulted. -/
def cleanup_old_locks (now : Int) (locks : List FlightLock) : List FlightLock :=
  locks.filter fun l => !(decide (l.locked_at < now - fifteenMinutes))

/-- Outcome `o` makes its attempt fail retryably: the operation throws a
retryable error, or resolves with a retryable structured error. -/
def failsRetryably (online : Bool) : AttemptOutcome α → Prop
  | .throws e => isRetryableError online (some e) = true
  | .returns res =>
      ∃ err, res.error = some err ∧ isRetryableError online (some err) = true

/-- A terminal (non-retryable when online) permission error. -/
def permissionError : JsError :=
  ⟨false, some "permission denied", none⟩

/-- An operation that resolves with a structured permission error on
every attempt. -/
def alwaysPermissionDenied : Nat → AttemptOutcome Unit :=
  fun _ => AttemptOutcome.returns ⟨none, some permissionError⟩

/-- An operation that resolves with non-null data next to a structured
non-retryable error on every attempt. -/
def passThroughOutcome : Nat → AttemptOutcome Nat :=
  fun _ => AttemptOutcome.returns ⟨some 7, some permissionError⟩

/-- A concrete active flight row. -/
def flightRowA : FlightRow :=
  ⟨"a", "N123", 0, 10, "active"⟩

/-- A second active flight row for the same tail number whose dates
overlap those of `flightRowA`. -/
def flightRowB : FlightRow :=
  ⟨"b", "N123", 5, 15, "active"⟩

/-- A concrete flight being edited. -/
def flightOne : Flight :=
  ⟨"f1", "N123", "2025-01-01T10:00", "2025-01-01T12:00", "KJFK", "KLAX",
   "", "Acme Air", "active", "2025-01-01T00:00", "u0", "2025-01-01T00:00"⟩

/-- A concrete submitted form for an update of `flightOne`. -/
def formOne : FlightForm :=
  ⟨"Acme Air", "N123", "2025-01-02T10:00", "2025-01-02T12:00", "KJFK",
   "KLAX", "updated notes"⟩

/-- A fresh lock and a stale lock around a concrete cleanup instant. -/
def lockFresh : FlightLock :=
  ⟨"f1", "u1", "u1@example.com", 9900⟩

/-- A lock acquired more than fifteen minutes before the cleanup
instant 10000. -/
def lockStale : FlightLock :=
  ⟨"f2", "u2", "u2@example.com", 0⟩

/-- Step lemma: the executed operation resolves without error, so the
loop returns its result unchanged. -/
theorem retryLoop_step_ok {α} {online : Bool} {outcomes : Nat → AttemptOutcome α}
    {fuel attempt execs : Nat} {le : Option JsError} {acc : List Nat}
    {res : QueryResult α} (h : outcomes execs = .returns res) (he : res.error = none) :
    retryLoop online outcomes (fuel + 1) attempt execs le acc =
      ⟨res, execs + 1, acc.reverse⟩ := by
  simp [retryLoop, h, he]

/-- Step lemma: the operation resolves with a non-retryable structured
error, so the loop returns that result unchanged. -/
theorem retryLoop_step_err_terminal {α} {online : Bool} {outcomes : Nat → AttemptOutcome α}
    {fuel attempt execs : Nat} {le : Option JsError} {acc : List Nat}
    {res : QueryResult α} {err : JsError} (h : outcomes execs = .returns res)
    (he : res.error = some err) (hr : isRetryableError online (some err) = false) :
    retryLoop online outcomes (fuel + 1) attempt execs le acc =
      ⟨res, execs + 1, acc.reverse⟩ := by
  simp [retryLoop, h, he, hr]

/-- Step lemma: the operation resolves with a retryable structured error
while further attempts remain, so the loop waits and retries. -/
theorem retryLoop_step_err_retry {α} {online : Bool} {outcomes : Nat → AttemptOutcome α}
    {fuel attempt execs : Nat} {le : Option JsError} {acc : List Nat}
    {res : QueryResult α} {err : JsError} (h : outcomes execs = .returns res)
    (he : res.error = some err) (hr : isRetryableError online (some err) = true)
    (hn : attempt < MAX_RETRIES - 1) :
    retryLoop online outcomes (fuel + 1) attempt execs le acc =
      retryLoop online outcomes fuel (attempt + 1) (execs + 1) (some err)
        (retryDelay attempt :: acc) := by
  simp [retryLoop, h, he, hr, hn]

/-- Step lemma: the operation resolves with a retryable structured error
on the last permitted attempt, so the loop breaks with the formatted
error. -/
theorem retryLoop_step_err_exhausted {α} {online : Bool} {outcomes : Nat → AttemptOutcome α}
    {fuel attempt execs : Nat} {le : Option JsError} {acc : List Nat}
    {res : QueryResult α} {err : JsError} (h : outcomes execs = .returns res)
    (he : res.error = some err) (hr : isRetryableError online (some err) = true)
    (hn : ¬ attempt < MAX_RETRIES - 1) :
    retryLoop online outcomes (fuel + 1) attempt execs le acc =
      ⟨⟨none, some (formattedError (some err))⟩, execs + 1, acc.reverse⟩ := by
  simp [retryLoop, h, he, hr, hn]

/-- Step lemma: the operation throws a retryable error while further
attempts remain, so the loop waits and retries. -/
theorem retryLoop_step_throw_retry {α} {online : Bool} {outcomes : Nat → AttemptOutcome α}
    {fuel attempt execs : Nat} {le : Option JsError} {acc : List Nat}
    {e : JsError} (h : outcomes execs = .throws e)
    (hr : isRetryableError online (some e) = true) (hn : attempt < MAX_RETRIES - 1) :
    retryLoop online outcomes (fuel + 1) attempt execs le acc =
      retryLoop online outcomes fuel (attempt + 1) (execs + 1) (some e)
        (retryDelay attempt :: acc) := by
  simp [retryLoop, h, hr, hn]

/-- Step lemma: the operation throws but the catch guard fails (the
error is terminal, or no attempts remain), so the loop breaks with the
formatted error. -/
theorem retryLoop_step_throw_break {α} {online : Bool} {outcomes : Nat → AttemptOutcome α}
    {fuel attempt execs : Nat} {le : Option JsError} {acc : List Nat}
    {e : JsError} (h : outcomes execs = .throws e)
    (hg : (decide (attempt < MAX_RETRIES - 1) && isRetryableError online (some e)) = false) :
    retryLoop online outcomes (fuel + 1) attempt execs le acc =
      ⟨⟨none, some (formattedError (some e))⟩, execs + 1, acc.reverse⟩ := by
  simp only [retryLoop, h, hg, Bool.false_eq_true, if_false]

/-- The loop never executes the operation more often than its remaining
fuel allows. -/
theorem retryLoop_attempts_le {α} (online : Bool) (outcomes : Nat → AttemptOutcome α) :
    ∀ (fuel attempt execs : Nat) (le : Option JsError) (acc : List Nat),
      (retryLoop online outcomes fuel attempt execs le acc).attempts ≤ execs + fuel := by
  intro fuel
  induction fuel with
  | zero => intro attempt execs le acc; simp [retryLoop]
  | succ fuel ih =>
    intro attempt execs le acc
    cases h : outcomes execs with
    | returns res =>
      cases he : res.error with
      | none => rw [retryLoop_step_ok h he]; dsimp only; omega
      | some err =>
        by_cases hr : isRetryableError online (some err) = true
        · by_cases hn : attempt < MAX_RETRIES - 1
          · rw [retryLoop_step_err_retry h he hr hn]
            have := ih (attempt + 1) (execs + 1) (some err) (retryDelay attempt :: acc)
            omega
          · rw [retryLoop_step_err_exhausted h he hr hn]; dsimp only; omega
        · rw [retryLoop_step_err_terminal h he (by simpa using hr)]; dsimp only; omega
    | throws e =>
      by_cases hg : (decide (attempt < MAX_RETRIES - 1) && isRetryableError online (some e)) = true
      · have hn : attempt < MAX_RETRIES - 1 := by
          have := hg; simp [Bool.and_eq_true] at this; exact this.1
        have hr : isRetryableError online (some e) = true := by
          have := hg; simp [Bool.and_eq_true] at this; exact this.2
        rw [retryLoop_step_throw_retry h hr hn]
        have := ih (attempt + 1) (execs + 1) (some e) (retryDelay attempt :: acc)
        omega
      · rw [retryLoop_step_throw_break h (by simpa using hg)]; dsimp only; omega

/-- When started at loop counter `n` with the delay history of attempts
`0, ..., n-1`, the loop ends with the delay history of attempts
`0, ..., m-1` for some `m ≥ n`: every recorded delay is the backoff of
its attempt index. -/
theorem retryLoop_delays {α} (online : Bool) (outcomes : Nat → AttemptOutcome α) :
    ∀ (fuel n execs : Nat) (le : Option JsError),
      ∃ m, n ≤ m ∧
        (retryLoop online outcomes fuel n execs le
            (((List.range n).map retryDelay).reverse)).delays
          = (List.range m).map retryDelay := by
  intro fuel
  induction fuel with
  | zero => intro n execs le; exact ⟨n, le_rfl, by simp [retryLoop]⟩
  | succ fuel ih =>
    intro n execs le
    have hacc : retryDelay n :: ((List.range n).map retryDelay).reverse
        = ((List.range (n + 1)).map retryDelay).reverse := by
      simp [List.range_succ]
    cases h : outcomes execs with
    | returns res =>
      cases he : res.error with
      | none => exact ⟨n, le_rfl, by rw [retryLoop_step_ok h he]; simp⟩
      | some err =>
        by_cases hr : isRetryableError online (some err) = true
        · by_cases hn : n < MAX_RETRIES - 1
          · obtain ⟨m, hm, hd⟩ := ih (n + 1) (execs + 1) (some err)
            refine ⟨m, by omega, ?_⟩
            rw [retryLoop_step_err_retry h he hr hn, hacc]
            exact hd
          · exact ⟨n, le_rfl, by rw [retryLoop_step_err_exhausted h he hr hn]; simp⟩
        · exact ⟨n, le_rfl,
            by rw [retryLoop_step_err_terminal h he (by simpa using hr)]; simp⟩
    | throws e =>
      by_cases hg : (decide (n < MAX_RETRIES - 1) && isRetryableError online (some e)) = true
      · have hn : n < MAX_RETRIES - 1 := by
          have := hg; simp [Bool.and_eq_true] at this; exact this.1
        have hr : isRetryableError online (some e) = true := by
          have := hg; simp [Bool.and_eq_true] at this; exact this.2
        obtain ⟨m, hm, hd⟩ := ih (n + 1) (execs + 1) (some e)
        refine ⟨m, by omega, ?_⟩
        rw [retryLoop_step_throw_retry h hr hn, hacc]
        exact hd
      · exact ⟨n, le_rfl, by rw [retryLoop_step_throw_break h (by simpa using hg)]; simp⟩

/-- Successive backoff delays never decrease. -/
theorem retryDelay_mono (k : Nat) : retryDelay k ≤ retryDelay (k + 1) := by
  have h2 : (2 : Nat) ^ k ≤ 2 ^ (k + 1) :=
    Nat.pow_le_pow_right (by norm_num) (Nat.le_succ k)
  simp only [retryDelay, INITIAL_RETRY_DELAY, MAX_RETRY_DELAY]
  omega

/-- An empty needle occurs in every list. -/
theorem containsSub_nil (h : List Char) : containsSub [] h = true := by
  cases h <;> simp [containsSub, List.isPrefixOf]

/-- Mapping a function over both lists preserves the prefix test. -/
theorem isPrefixOf_map_of_isPrefixOf (f : Char → Char) :
    ∀ (n h : List Char), n.isPrefixOf h = true →
      (n.map f).isPrefixOf (h.map f) = true := by
  intro n
  induction n with
  | nil => intro h _; simp [List.isPrefixOf]
  | cons a n ih =>
    intro h hp
    cases h with
    | nil => simp [List.isPrefixOf] at hp
    | cons b t =>
      simp only [List.isPrefixOf, Bool.and_eq_true, beq_iff_eq] at hp
      simp only [List.map_cons, List.isPrefixOf, Bool.and_eq_true, beq_iff_eq]
      exact ⟨by rw [hp.1], ih t hp.2⟩

/-- Mapping a function over both lists preserves substring occurrence. -/
theorem containsSub_map_of_containsSub (f : Char → Char) (n : List Char) :
    ∀ (h : List Char), containsSub n h = true →
      containsSub (n.map f) (h.map f) = true := by
  intro h
  induction h with
  | nil =>
    simp only [containsSub, List.isEmpty_iff]
    intro hn; subst hn; simp [containsSub]
  | cons c rest ih =>
    simp only [containsSub, Bool.or_eq_true, List.map_cons]
    rintro (hp | hc)
    · left
      have := isPrefixOf_map_of_isPrefixOf f n (c :: rest) hp
      simpa using this
    · right; exact ih hc

/-- A prefix of a list is a prefix of that list extended on the right. -/
theorem isPrefixOf_append_right (t : List Char) :
    ∀ (n h : List Char), n.isPrefixOf h = true →
      n.isPrefixOf (h ++ t) = true := by
  intro n
  induction n with
  | nil => intro h _; simp [List.isPrefixOf]
  | cons a n ih =>
    intro h hp
    cases h with
    | nil => simp [List.isPrefixOf] at hp
    | cons b rest =>
      simp only [List.isPrefixOf, Bool.and_eq_true] at hp
      simp only [List.cons_append, List.isPrefixOf, Bool.and_eq_true]
      exact ⟨hp.1, ih rest hp.2⟩

/-- A substring of a list occurs in that list extended on the right. -/
theorem containsSub_append_right (n t : List Char) :
    ∀ (h : List Char), containsSub n h = true →
      containsSub n (h ++ t) = true := by
  intro h
  induction h with
  | nil =>
    simp only [containsSub, List.isEmpty_iff, List.nil_append]
    intro hn; subst hn; exact containsSub_nil t
  | cons c rest ih =>
    simp only [containsSub, Bool.or_eq_true, List.cons_append]
    rintro (hp | hc)
    · left; exact isPrefixOf_append_right t n (c :: rest) hp
    · right; exact ih hc

/-- JavaScript containment survives appending to the searched string. -/
theorem strIncludes_append_right (s t needle : String) :
    strIncludes s needle = true → strIncludes (s ++ t) needle = true := by
  intro hs
  simp only [strIncludes, String.toList] at hs ⊢
  rw [String.data_append]
  exact containsSub_append_right _ _ _ hs

/-- Lowercasing the searched string preserves containment of a needle
that is itself unchanged by lowercasing. -/
theorem strIncludes_toLower (m needle : String)
    (hfix : needle.toList.map Char.toLower = needle.toList)
    (h : strIncludes m needle = true) :
    strIncludes (jsToLower m) needle = true := by
  simp only [strIncludes, String.toList] at h ⊢
  have := containsSub_map_of_containsSub Char.toLower needle.toList m.toList h
  rw [hfix] at this
  exact this

/-- A non-empty needle never occurs in the empty string. -/
theorem strIncludes_empty_hay (needle : String) (hn : needle ≠ "") :
    strIncludes "" needle = false := by
  cases hne : needle.toList with
  | nil =>
    exfalso
    apply hn
    cases needle with
    | mk l => simp only [String.toList] at hne; simp [hne]
  | cons c cs =>
    show containsSub needle.toList "".toList = false
    rw [hne]
    rfl

/-- C9: whenever the device is offline or the error is a TypeError, the
classifier reports every non-null error as retryable, regardless of its
message or code. -/
theorem classifier_offline_or_typeerror_retryable (online : Bool) (e : JsError)
    (h : e.isTypeError = true ∨ online = false) :
    isRetryableError online (some e) = true := by
  rcases h with h | h <;> simp [isRetryableError, h]

/-- Witness for C9: a TypeError carrying a "permission denied" message
is retryable while online, and a plain "not found" error is retryable
while offline. -/
theorem classifier_offline_or_typeerror_retryable_witness :
    isRetryableError true (some ⟨true, some "permission denied", none⟩) = true ∧
    isRetryableError false (some ⟨false, some "not found", none⟩) = true :=
  ⟨classifier_offline_or_typeerror_retryable true ⟨true, some "permission denied", none⟩
      (Or.inl rfl),
   classifier_offline_or_typeerror_retryable false ⟨false, some "not found", none⟩
      (Or.inr rfl)⟩

/-- C8: a lock row survives a cleanup pass at instant `now` exactly when
it was present before and is not older than fifteen minutes; in
particular every older row is deleted, and no column besides locked_at
(such as anything recording the owning client) is consulted. -/
theorem lock_cleanup_removes_stale (now : Int) (locks : List FlightLock)
    (l : FlightLock) :
    l ∈ cleanup_old_locks now locks ↔
      l ∈ locks ∧ ¬ (l.locked_at < now - fifteenMinutes) := by
  simp [cleanup_old_locks, List.mem_filter]

/-- Witness for C8: at instant 10000 the stale lock is gone and the
fresh lock survives. -/
theorem lock_cleanup_removes_stale_witness :
    (lockStale ∈ cleanup_old_locks 10000 [lockStale, lockFresh] ↔
      lockStale ∈ [lockStale, lockFresh] ∧
        ¬ (lockStale.locked_at < 10000 - fifteenMinutes)) ∧
    cleanup_old_locks 10000 [lockStale, lockFresh] = [lockFresh] :=
  ⟨lock_cleanup_removes_stale 10000 [lockStale, lockFresh] lockStale, by decide⟩

/-- C10: when the company lookup of db.companyTails.getByCompany yields
no data, whether because no row matched or because the lookup failed,
the call resolves with the empty list and a null error; the failure is
not surfaced. -/
theorem company_tails_missing_company_empty (companyLookup : QueryOutcome Company)
    (tailsQuery : Company → QueryOutcome (List CompanyTail))
    (h : (dbQuery companyLookup).data = none) :
    getByCompany companyLookup tailsQuery = ⟨some [], none⟩ := by
  simp [getByCompany, h]

/-- Witness for C10: a rejected company lookup still resolves with the
empty list and no error. -/
theorem company_tails_missing_company_empty_witness :
    getByCompany (QueryOutcome.rejects (some ⟨false, some "network error", none⟩))
        (fun _ => QueryOutcome.resolves ⟨some [], none⟩) = ⟨some [], none⟩ :=
  company_tails_missing_company_empty _ _ rfl

/-- C6: every outcome of the backend call is mapped by dbQuery to a
plain result value of shape data-or-null and string-or-null error: a
clean resolution passes its data through with a null error, a structured
error resolves with null data and the classified message, and a thrown
value resolves with null data and the classified message; no path
raises. -/
theorem facade_result_shape {α : Type} :
    (∀ res : QueryResult α, res.error = none →
        dbQuery (QueryOutcome.resolves res) = ⟨res.data, none⟩)
    ∧ (∀ (res : QueryResult α) (err : JsError), res.error = some err →
        dbQuery (QueryOutcome.resolves res) = ⟨none, some (handleDbError (some err))⟩)
    ∧ (∀ e : Option JsError,
        dbQuery (QueryOutcome.rejects e : QueryOutcome α) =
          ⟨none, some (handleDbError e)⟩) := by
  refine ⟨?_, ?_, fun e => rfl⟩
  · intro res h; simp [dbQuery, h]
  · intro res err h; simp [dbQuery, h]

/-- Witness for C6: the three outcome shapes at concrete inputs. -/
theorem facade_result_shape_witness :
    dbQuery (QueryOutcome.resolves (⟨some (), none⟩ : QueryResult Unit))
      = ⟨some (), none⟩ ∧
    dbQuery (QueryOutcome.resolves (⟨none, some permissionError⟩ : QueryResult Unit))
      = ⟨none, some "You do not have permission to perform this action."⟩ ∧
    dbQuery (QueryOutcome.rejects none : QueryOutcome Unit)
      = ⟨none, some "An error occurred while accessing the database."⟩ := by
  refine ⟨(@facade_result_shape Unit).1 ⟨some (), none⟩ rfl, ?_, ?_⟩
  · rw [(@facade_result_shape Unit).2.1 ⟨none, some permissionError⟩ permissionError rfl]
    decide
  · rw [(@facade_result_shape Unit).2.2 none]
    decide

/-- C5: a run of onSubmit that edits an existing flight, passes the date
check, has an authenticated user and whose flights update resolves
without error issues exactly one audit_logs insert, with action
"update", changes.previous equal to the pre-update flight and
changes.new equal to the submitted flightData. -/
theorem flight_update_audit_single_entry (f : Flight) (data : FlightForm)
    (uid : String) (endBeforeStart : Bool) (user : Option String)
    (updateError : Option JsError) (insertOutcome : QueryResult Flight)
    (hdate : endBeforeStart = false) (huser : user = some uid)
    (hupd : updateError = none) :
    onSubmit (some f) data endBeforeStart user updateError insertOutcome =
      [⟨f.id, uid, "update",
        AuditChanges.updateChanges f ⟨data, uid, statusOrActive (some f)⟩⟩] := by
  subst hdate huser hupd
  rfl

/-- Witness for C5: a concrete successful update issues the single
expected audit insert. -/
theorem flight_update_audit_single_entry_witness :
    onSubmit (some flightOne) formOne false (some "u1") none ⟨none, none⟩ =
      [⟨"f1", "u1", "update",
        AuditChanges.updateChanges flightOne ⟨formOne, "u1", "active"⟩⟩] := by
  rw [flight_update_audit_single_entry flightOne formOne "u1" false (some "u1") none
      ⟨none, none⟩ rfl rfl rfl]
  decide

/-- C2 (amended): a non-null error whose message contains "timeout",
"network error" or "failed to fetch" is always classified retryable; an
error whose message contains "permission denied" or "not found" is
classified non-retryable provided the device is online, the error is not
a TypeError, its lowercased message contains none of the retryable
substrings, and its code is not one of the retryable codes. -/
theorem classifier_message_policy :
    (∀ (online : Bool) (e : JsError) (m : String), e.message = some m →
        (strIncludes m "timeout" = true ∨ strIncludes m "network error" = true ∨
          strIncludes m "failed to fetch" = true) →
        isRetryableError online (some e) = true)
    ∧ (∀ (e : JsError) (m : String), e.isTypeError = false → e.message = some m →
        (strIncludes m "permission denied" = true ∨ strIncludes m "not found" = true) →
        (∀ s ∈ retryableMessages, strIncludes (jsToLower m) s = false) →
        (∀ c, e.code = some c → retryableCodes.contains c = false) →
        isRetryableError true (some e) = false) := by
  have unfoldClassifier : ∀ (online : Bool) (e : JsError),
      isRetryableError online (some e)
        = (if (e.isTypeError || !online) then true
           else if (match e.message with
             | some m => decide (m ≠ "") &&
                 retryableMessages.any (fun msg => strIncludes (jsToLower m) msg)
             | none => false) then true
           else match e.code with
             | some c => decide (c ≠ "") && retryableCodes.contains c
             | none => false) := fun online e => rfl
  constructor
  · intro online e m hm hcontains
    have hmne : m ≠ "" := by
      intro h0
      subst h0
      rcases hcontains with h | h | h <;> exact absurd h (by decide)
    have hlow : ∃ s ∈ retryableMessages, strIncludes (jsToLower m) s = true := by
      rcases hcontains with h | h | h
      · exact ⟨"timeout", by decide, strIncludes_toLower m "timeout" (by decide) h⟩
      · exact ⟨"network error", by decide,
          strIncludes_toLower m "network error" (by decide) h⟩
      · exact ⟨"failed to fetch", by decide,
          strIncludes_toLower m "failed to fetch" (by decide) h⟩
    have hbranch : (match e.message with
        | some m => decide (m ≠ "") &&
            retryableMessages.any (fun msg => strIncludes (jsToLower m) msg)
        | none => false) = true := by
      rw [hm]
      show (decide (m ≠ "") &&
        retryableMessages.any (fun msg => strIncludes (jsToLower m) msg)) = true
      simp only [Bool.and_eq_true, decide_eq_true_eq, List.any_eq_true]
      exact ⟨hmne, hlow⟩
    rw [unfoldClassifier, hbranch]
    by_cases hTO : (e.isTypeError || !online) = true
    · rw [hTO]
      simp
    · rw [Bool.eq_false_iff.mpr hTO]
      simp
  · intro e m hT hm hcontains hnone hcode
    have hany : retryableMessages.any (fun msg => strIncludes (jsToLower m) msg) = false := by
      rw [List.any_eq_false]
      intro s hs
      simp [hnone s hs]
    have hbranch : (match e.message with
        | some m => decide (m ≠ "") &&
            retryableMessages.any (fun msg => strIncludes (jsToLower m) msg)
        | none => false) = false := by
      rw [hm]
      show (decide (m ≠ "") &&
        retryableMessages.any (fun msg => strIncludes (jsToLower m) msg)) = false
      rw [hany, Bool.and_false]
    rw [unfoldClassifier, hT, hbranch]
    cases hc : e.code with
    | none => simp
    | some c =>
      have hcc := hcode c hc
      have hmem : c ∉ retryableCodes := by simpa using hcc
      simp [hmem]

/-- Witness for C2: a "connect timeout" message is retryable and a plain
"permission denied" message, online and without a code, is not. -/
theorem classifier_message_policy_witness :
    isRetryableError true (some ⟨false, some "connect timeout", none⟩) = true ∧
    isRetryableError true (some ⟨false, some "permission denied", none⟩) = false := by
  constructor
  · exact classifier_message_policy.1 true ⟨false, some "connect timeout", none⟩
      "connect timeout" rfl (Or.inl (by decide))
  · exact classifier_message_policy.2 ⟨false, some "permission denied", none⟩
      "permission denied" rfl rfl (Or.inl (by decide)) (by decide)
      (fun c hc => by cases hc)

/-- Counterexample for C2 as stated: errors whose message contains
"permission denied" or "not found" are nonetheless classified retryable
when the device is offline, when the error is a TypeError, when the
message also contains a retryable substring, or when the error carries a
retryable code. -/
theorem classifier_message_policy_counterexample :
    strIncludes "permission denied" "permission denied" = true ∧
    isRetryableError false (some ⟨false, some "permission denied", none⟩) = true ∧
    isRetryableError true (some ⟨true, some "permission denied", none⟩) = true ∧
    strIncludes "etimedout - permission denied" "permission denied" = true ∧
    isRetryableError true (some ⟨false, some "etimedout - permission denied", none⟩) = true ∧
    strIncludes "row not found" "not found" = true ∧
    isRetryableError true (some ⟨false, some "row not found", some "503"⟩) = true := by
  decide

/-- C3: when the first attempt fails with a non-retryable error, whether
thrown or returned as a structured error, the retry proxy executes the
operation exactly once. -/
theorem retrier_terminal_single_attempt {α : Type} (online : Bool)
    (outcomes : Nat → AttemptOutcome α) :
    (∀ e : JsError, outcomes 0 = AttemptOutcome.throws e →
        isRetryableError online (some e) = false →
        (proxyCall online outcomes).attempts = 1)
    ∧ (∀ (res : QueryResult α) (err : JsError),
        outcomes 0 = AttemptOutcome.returns res → res.error = some err →
        isRetryableError online (some err) = false →
        (proxyCall online outcomes).attempts = 1) := by
  constructor
  · intro e h hr
    show (retryLoop online outcomes (2 + 1) 0 0 none []).attempts = 1
    rw [retryLoop_step_throw_break h (by rw [hr, Bool.and_false])]
  · intro res err h he hr
    show (retryLoop online outcomes (2 + 1) 0 0 none []).attempts = 1
    rw [retryLoop_step_err_terminal h he hr]

/-- Witness for C3: an operation resolving with a structured permission
error is executed exactly once. -/
theorem retrier_terminal_single_attempt_witness :
    (proxyCall true alwaysPermissionDenied).attempts = 1 :=
  (retrier_terminal_single_attempt true alwaysPermissionDenied).2
    ⟨none, some permissionError⟩ permissionError rfl rfl (by decide)

/-- C7 (amended): a thrown non-retryable first error makes the proxy
resolve with the normalized failure value, null data plus the formatted
error; exhausting every attempt on retryable failures likewise resolves
with null data and a present error after exactly MAX_RETRIES
executions; but a structured non-retryable error returned by the
operation is passed through unchanged, its data field included. In the
model no path raises: every case yields a RunTrace value. -/
theorem retrier_failure_normalization {α : Type} (online : Bool)
    (outcomes : Nat → AttemptOutcome α) :
    (∀ e : JsError, outcomes 0 = AttemptOutcome.throws e →
        isRetryableError online (some e) = false →
        proxyCall online outcomes =
          ⟨⟨none, some (formattedError (some e))⟩, 1, []⟩)
    ∧ (∀ (res : QueryResult α) (err : JsError),
        outcomes 0 = AttemptOutcome.returns res → res.error = some err →
        isRetryableError online (some err) = false →
        proxyCall online outcomes = ⟨res, 1, []⟩)
    ∧ ((∀ i, i < MAX_RETRIES → failsRetryably online (outcomes i)) →
        (proxyCall online outcomes).result.data = none ∧
        ((proxyCall online outcomes).result.error).isSome = true ∧
        (proxyCall online outcomes).attempts = MAX_RETRIES) := by
  refine ⟨?_, ?_, ?_⟩
  · intro e h hr
    show retryLoop online outcomes (2 + 1) 0 0 none [] = _
    rw [retryLoop_step_throw_break h (by rw [hr, Bool.and_false])]
    rfl
  · intro res err h he hr
    show retryLoop online outcomes (2 + 1) 0 0 none [] = _
    rw [retryLoop_step_err_terminal h he hr]
    rfl
  · intro h
    have h0 := h 0 (by decide)
    have h1 := h 1 (by decide)
    have h2 := h 2 (by decide)
    show (retryLoop online outcomes (2 + 1) 0 0 none []).result.data = none ∧
      ((retryLoop online outcomes (2 + 1) 0 0 none []).result.error).isSome = true ∧
      (retryLoop online outcomes (2 + 1) 0 0 none []).attempts = MAX_RETRIES
    cases ho0 : outcomes 0 with
    | throws e0 =>
      rw [ho0] at h0
      rw [retryLoop_step_throw_retry ho0 h0 (by decide)]
      cases ho1 : outcomes 1 with
      | throws e1 =>
        rw [ho1] at h1
        rw [retryLoop_step_throw_retry ho1 h1 (by decide)]
        cases ho2 : outcomes 2 with
        | throws e2 =>
          rw [retryLoop_step_throw_break ho2 (by simp [MAX_RETRIES])]
          exact ⟨rfl, rfl, rfl⟩
        | returns res2 =>
          rw [ho2] at h2
          obtain ⟨err2, he2, hr2⟩ := h2
          rw [retryLoop_step_err_exhausted ho2 he2 hr2 (by decide)]
          exact ⟨rfl, rfl, rfl⟩
      | returns res1 =>
        rw [ho1] at h1
        obtain ⟨err1, he1, hr1⟩ := h1
        rw [retryLoop_step_err_retry ho1 he1 hr1 (by decide)]
        cases ho2 : outcomes 2 with
        | throws e2 =>
          rw [retryLoop_step_throw_break ho2 (by simp [MAX_RETRIES])]
          exact ⟨rfl, rfl, rfl⟩
        | returns res2 =>
          rw [ho2] at h2
          obtain ⟨err2, he2, hr2⟩ := h2
          rw [retryLoop_step_err_exhausted ho2 he2 hr2 (by decide)]
          exact ⟨rfl, rfl, rfl⟩
    | returns res0 =>
      rw [ho0] at h0
      obtain ⟨err0, he0, hr0⟩ := h0
      rw [retryLoop_step_err_retry ho0 he0 hr0 (by decide)]
      cases ho1 : outcomes 1 with
      | throws e1 =>
        rw [ho1] at h1
        rw [retryLoop_step_throw_retry ho1 h1 (by decide)]
        cases ho2 : outcomes 2 with
        | throws e2 =>
          rw [retryLoop_step_throw_break ho2 (by simp [MAX_RETRIES])]
          exact ⟨rfl, rfl, rfl⟩
        | returns res2 =>
          rw [ho2] at h2
          obtain ⟨err2, he2, hr2⟩ := h2
          rw [retryLoop_step_err_exhausted ho2 he2 hr2 (by decide)]
          exact ⟨rfl, rfl, rfl⟩
      | returns res1 =>
        rw [ho1] at h1
        obtain ⟨err1, he1, hr1⟩ := h1
        rw [retryLoop_step_err_retry ho1 he1 hr1 (by decide)]
        cases ho2 : outcomes 2 with
        | throws e2 =>
          rw [retryLoop_step_throw_break ho2 (by simp [MAX_RETRIES])]
          exact ⟨rfl, rfl, rfl⟩
        | returns res2 =>
          rw [ho2] at h2
          obtain ⟨err2, he2, hr2⟩ := h2
          rw [retryLoop_step_err_exhausted ho2 he2 hr2 (by decide)]
          exact ⟨rfl, rfl, rfl⟩

/-- Witness for C7: the structured-error pass-through at a concrete
terminal error, and the exhaustion shape for an operation that always
times out. -/
theorem retrier_failure_normalization_witness :
    proxyCall true alwaysPermissionDenied = ⟨⟨none, some permissionError⟩, 1, []⟩ ∧
    ((proxyCall true alwaysTimeout).result.data = none ∧
      ((proxyCall true alwaysTimeout).result.error).isSome = true ∧
      (proxyCall true alwaysTimeout).attempts = MAX_RETRIES) :=
  ⟨(retrier_failure_normalization true alwaysPermissionDenied).2.1
      ⟨none, some permissionError⟩ permissionError rfl rfl (by decide),
   (retrier_failure_normalization true alwaysTimeout).2.2
      (fun i _ => show isRetryableError true (some timeoutError) = true by decide)⟩

/-- Counterexample for C7 as stated: an operation resolving with
non-null data next to a non-retryable structured error is passed through
by the proxy with its data intact, not as a normalized null-data failure
result. -/
theorem retrier_failure_normalization_counterexample :
    isRetryableError true (some permissionError) = false ∧
    (proxyCall true passThroughOutcome).result.data = some 7 ∧
    ¬ (proxyCall true passThroughOutcome).result.data = none := by
  decide

/-- C1 (amended): every call through the retry proxy executes the
operation at most MAX_RETRIES times, records exactly the delay
`min(INITIAL_RETRY_DELAY * 2 ^ attempt, MAX_RETRY_DELAY)` for each
attempt index in order, and therefore its delay sequence never
decreases; for an operation that fails retryably on every attempt the
observed sequence is 1000, 2000 — only two inter-attempt waits happen,
so the 5000 cap is never reached. -/
theorem retrier_backoff_bounds {α : Type} (online : Bool)
    (outcomes : Nat → AttemptOutcome α) :
    (proxyCall online outcomes).attempts ≤ MAX_RETRIES ∧
    (proxyCall online outcomes).delays =
      (List.range (proxyCall online outcomes).delays.length).map retryDelay ∧
    List.Chain' (fun a b => a ≤ b) (proxyCall online outcomes).delays ∧
    (proxyCall true alwaysTimeout).delays = [1000, 2000] := by
  have hatt := retryLoop_attempts_le online outcomes MAX_RETRIES 0 0 none []
  obtain ⟨m, _, hd⟩ := retryLoop_delays online outcomes MAX_RETRIES 0 0 none
  have hd' : (proxyCall online outcomes).delays = (List.range m).map retryDelay := hd
  refine ⟨by simpa using hatt, ?_, ?_, by decide⟩
  · rw [hd']
    simp
  · rw [hd', List.chain'_map]
    cases m with
    | zero => simp
    | succ k =>
      rw [List.chain'_range_succ]
      intro i _
      exact retryDelay_mono i

/-- Counterexample for C1 as stated: with three attempts only the delays
for attempt indices 0 and 1 are ever waited, so the observed sequence
for an always-failing retryable operation is 1000, 2000 and has length
two, not the three-element sequence claimed; moreover the delay formula
at attempt 2 yields 4000, which the 5000 cap leaves unchanged. -/
theorem retrier_delay_sequence_counterexample :
    (proxyCall true alwaysTimeout).delays = [1000, 2000] ∧
    (proxyCall true alwaysTimeout).delays.length = 2 ∧
    ¬ (proxyCall true alwaysTimeout).delays = [1000, 2000, 5000] ∧
    ¬ (proxyCall true alwaysTimeout).delays = [1000, 2000, 4000] ∧
    retryDelay 2 = 4000 ∧ ¬ retryDelay 2 = 5000 := by
  decide

/-- The SQL OVERLAPS predicate is symmetric in its two periods. -/
theorem sqlOverlaps_symm (s1 e1 s2 e2 : Int) :
    sqlOverlaps s1 e1 s2 e2 = true ↔ sqlOverlaps s2 e2 s1 e1 = true := by
  simp only [sqlOverlaps, Bool.or_eq_true, Bool.and_eq_true, decide_eq_true_eq]
  omega

/-- C4: inserting a flight row that overlaps an existing active row with
the same tail number and a different id makes the validation trigger
raise the overlap exception, which handleDbError classifies as the
user-facing overlap message; and an insert the trigger lets through
preserves the invariant that no two active rows with the same tail
number overlap, given primary-key freshness of the new id. -/
theorem flight_overlap_rejection_invariant :
    (∀ (table : List FlightRow) (newRow f : FlightRow), f ∈ table →
        newRow.status = "active" → f.status = "active" →
        f.tail_number = newRow.tail_number → f.id ≠ newRow.id →
        sqlOverlaps newRow.start_date newRow.end_date f.start_date f.end_date = true →
        insertFlight table newRow = .error (overlapError newRow.tail_number) ∧
          handleDbError (some (overlapError newRow.tail_number)) =
            "This flight overlaps with another flight for the same aircraft.")
    ∧ (∀ (table : List FlightRow) (newRow : FlightRow) (table2 : List FlightRow),
        (∀ f ∈ table, f.id ≠ newRow.id) → noActiveOverlap table →
        insertFlight table newRow = .ok table2 → noActiveOverlap table2) := by
  constructor
  · intro table newRow f hf _ hstat htail hid hover
    have hviol : validate_flight_dates table newRow = true := by
      rw [validate_flight_dates, List.any_eq_true]
      refine ⟨f, hf, ?_⟩
      simp [htail, hid, hstat, hover]
    constructor
    · simp [insertFlight, hviol]
    · have hmsg : strIncludes (overlapMessage newRow.tail_number) "dates overlap" = true := by
        have base : strIncludes
            "Flight dates overlap with existing flight for tail number "
            "dates overlap" = true := by decide
        exact strIncludes_append_right _ _ _ base
      have hne : overlapMessage newRow.tail_number ≠ "" := by
        intro h0
        rw [h0] at hmsg
        exact absurd hmsg (by decide)
      show handleDbError (some ⟨false, some (overlapMessage newRow.tail_number), none⟩) = _
      simp only [handleDbError, hmsg, if_neg hne, if_true]
  · intro table newRow table2 hfresh hinv hok
    have hval : validate_flight_dates table newRow = false := by
      cases h : validate_flight_dates table newRow with
      | false => rfl
      | true => rw [insertFlight, h] at hok; simp at hok
    have htable2 : table2 = table ++ [newRow] := by
      rw [insertFlight, hval] at hok
      simp only [Bool.false_eq_true, if_false, Except.ok.injEq] at hok
      exact hok.symm
    subst htable2
    rw [noActiveOverlap, List.pairwise_append]
    refine ⟨hinv, List.pairwise_singleton _ _, ?_⟩
    intro f hf g hg
    rw [List.mem_singleton] at hg
    subst hg
    intro hbad
    obtain ⟨hfact, hnact, htail, hover⟩ := hbad
    rw [validate_flight_dates, List.any_eq_false] at hval
    have hp := hval f hf
    have hid := hfresh f hf
    have hover2 := (sqlOverlaps_symm _ _ _ _).mp hover
    exact hp (by simp [htail, hid, hfact, hover2])

/-- Witness for C4: a concrete overlapping second flight for tail
"N123" is rejected and classified, and a first insert into the empty
table preserves the invariant. -/
theorem flight_overlap_rejection_invariant_witness :
    insertFlight [flightRowA] flightRowB = .error (overlapError "N123") ∧
    handleDbError (some (overlapError "N123")) =
      "This flight overlaps with another flight for the same aircraft." ∧
    noActiveOverlap [flightRowA] := by
  have h1 := (flight_overlap_rejection_invariant).1 [flightRowA] flightRowB flightRowA
    (by decide) rfl rfl rfl (by decide) (by decide)
  have h2 := (flight_overlap_rejection_invariant).2 [] flightRowA [flightRowA]
    (by intro f hf; cases hf) List.Pairwise.nil rfl
  exact ⟨h1.1, h1.2, h2⟩
